import Mathlib

/-!
Verification of the pipeline-control logic of `bam_to_bigwig.py` (a shallow
embedding of the script in Lean 4).  The script drives two external tools
(`rsem-bam2wig`, `wigToBigWig`); its own logic is precondition checks,
subprocess exit-status interpretation, a size-table writer and cleanup.
External library behaviour (the filesystem, `pysam`, `tempfile`, the
subprocesses themselves, the interactive terminal) is modelled by oracle
functions supplied in a `World` record; the script's own control flow is
transcribed line by line.  Observable side effects are recorded in an event
trace.
-/

namespace BamToBigwig

/-! ### Signal registry (lines 77-111)

The source stores a 34-line tab-separated table `unix_signals_tsv` and builds
`unix_signals = dict([(-int(t[0]), t) for t in [line.split('\t') for line in
unix_signals_tsv.split('\n')]])`.  We transcribe the split result of each line
directly as a list of its four fields (the splitting of the literal string is
performed by hand, faithfully to `str.split`), and the dict as an association
list keyed by `-int(t[0])`; all keys are distinct, so `List.lookup` agrees
with Python dict lookup. -/

/-- Rows of `unix_signals_tsv` after `line.split('\t')`: each row is
`[number, name, disposition, description]` exactly as in lines 77-110. -/
def unix_signals_rows : List (List String) :=
  [["1", "SIGHUP", "Exit", "Hangup"],
   ["2", "SIGINT", "Exit", "Interrupt"],
   ["3", "SIGQUIT", "Core", "Quit"],
   ["4", "SIGILL", "Core", "Illegal Instruction"],
   ["5", "SIGTRAP", "Core", "Trace/Breakpoint Trap"],
   ["6", "SIGABRT", "Core", "Abort"],
   ["7", "SIGEMT", "Core", "Emulation Trap"],
   ["8", "SIGFPE", "Core", "Arithmetic Exception"],
   ["9", "SIGKILL", "Exit", "Killed"],
   ["10", "SIGBUS", "Core", "Bus Error"],
   ["11", "SIGSEGV", "Core", "Segmentation Fault"],
   ["12", "SIGSYS", "Core", "Bad System Call"],
   ["13", "SIGPIPE", "Exit", "Broken Pipe"],
   ["14", "SIGALRM", "Exit", "Alarm Clock"],
   ["15", "SIGTERM", "Exit", "Terminated"],
   ["16", "SIGUSR1", "Exit", "User Signal 1"],
   ["17", "SIGUSR2", "Exit", "User Signal 2"],
   ["18", "SIGCHLD", "Ignore", "Child Status"],
   ["19", "SIGPWR", "Ignore", "Power Fail/Restart"],
   ["20", "SIGWINCH", "Ignore", "Window Size Change"],
   ["21", "SIGURG", "Ignore", "Urgent Socket Condition"],
   ["22", "SIGPOLL", "Ignore", "Socket I/O Possible"],
   ["23", "SIGSTOP", "Stop", "Stopped (signal)"],
   ["24", "SIGTSTP", "Stop", "Stopped (user)"],
   ["25", "SIGCONT", "Ignore", "Continued"],
   ["26", "SIGTTIN", "Stop", "Stopped (tty input)"],
   ["27", "SIGTTOU", "Stop", "Stopped (tty output)"],
   ["28", "SIGVTALRM", "Exit", "Virtual Timer Expired"],
   ["29", "SIGPROF", "Exit", "Profiling Timer Expired"],
   ["30", "SIGXCPU", "Core", "CPU time limit exceeded"],
   ["31", "SIGXFSZ", "Core", "File size limit exceeded"],
   ["32", "SIGWAITING", "Ignore", "All LWPs blocked"],
   ["33", "SIGLWP", "Ignore", "Virtual Interprocessor Interrupt for Threads Library"],
   ["34", "SIGAIO", "Ignore", "Asynchronous I/O"]]

/-- Python `int(s)` on the strings that occur here (non-empty strings of
decimal digits): fold up the digit values. -/
def pyInt (s : String) : Int :=
  Int.ofNat (s.data.foldl (fun a c => 10 * a + (c.toNat - 48)) 0)

/-- Line 111: `unix_signals = dict([(-int(t[0]), t) for t in rows])`.
All 34 keys are distinct, so association-list lookup agrees with the
Python dict. -/
def unix_signals : List (Int × List String) :=
  unix_signals_rows.map (fun t => (-(pyInt (t.headD "")), t))

/-! ### Exit-status classification (lines 168-177 and 224-233)

Both stage wrappers contain the identical block
```
rc = p.returncode
if rc != 0:
    if rc < 0:
        try: log.critical('... signal %d: %s, %s, %s' % (..., -rc, t[1], t[2], t[3]))
        except KeyError: log.critical('... signal %d' % (..., -rc))
    else: log.critical('... non-zero return code: %d' % (..., rc))
return rc == 0, rc
```
We factor each wrapper's block into a classification (which branch is taken
and with which registry entry; `unix_signals[rc]` raising `KeyError` is the
`lookup = none` case) and a shared message renderer. -/

/-- Outcome of the exit-status interpretation of one subprocess. -/
inductive RcKind where
  | success : RcKind
  | nonzeroExit (rc : Int) : RcKind
  | signalNamed (n : Int) (name disp desc : String) : RcKind
  | signalBare (n : Int) : RcKind
  deriving Repr, DecidableEq

/-- Classification performed by `bam_to_wig`, lines 168-177, over a registry
`reg` (the script uses the module-level `unix_signals`). -/
def bam_to_wig_classify (reg : List (Int × List String)) (rc : Int) : RcKind :=
  if rc ≠ 0 then
    if rc < 0 then
      match reg.lookup rc with
      | some t => .signalNamed (-rc) (t.getD 1 "") (t.getD 2 "") (t.getD 3 "")
      | none => .signalBare (-rc)
    else .nonzeroExit rc
  else .success

/-- Classification performed by `wig_to_bigwig`, lines 224-233; a textual
twin of the block in `bam_to_wig`. -/
def wig_to_bigwig_classify (reg : List (Int × List String)) (rc : Int) : RcKind :=
  if rc ≠ 0 then
    if rc < 0 then
      match reg.lookup rc with
      | some t => .signalNamed (-rc) (t.getD 1 "") (t.getD 2 "") (t.getD 3 "")
      | none => .signalBare (-rc)
    else .nonzeroExit rc
  else .success

/-! ### Worlds, events -/

/-- Observable side effects of a run, in order of occurrence. -/
inductive Event where
  | stdoutWrite (s : String) : Event
  | stderrWrite (s : String) : Event
  | logCritical (s : String) : Event
  | popen (cl : List String) : Event
  | probe (tool : String) : Event
  | sizesWritten (path : String) (content : String) : Event
  | remove (path : String) : Event
  deriving Repr, DecidableEq

/-- Snapshot of the `os`/`os.path` library calls the script makes; supplied
as oracles, since the filesystem is outside the program under verification. -/
structure FS where
  isfile : String → Bool
  path_exists : String → Bool
  getsize : String → Nat
  access_w : String → Bool
  abspath : String → String
  dirname : String → String
  splitext0 : String → String
  deriving Inhabited

/-- Environment of one invocation: filesystem oracles, the exit status each
launched command line would return (`Popen` + `communicate` + `returncode`),
the lines the interactive user would type, the names `tempfile` would
generate, the reference catalog `pysam` would report for the input, the
result of `open(chr_sizes_filename, "wb")`, and whether `os.remove`
succeeds on a path.  `sizesOpenErrno = none` means the open succeeds;
`some e` means it raises `IOError` with `errno = e`. -/
structure World where
  fs : FS
  runner : List String → Int
  inputs : List String
  tempWig : String
  tempSizes : String
  chr_sizes : List (String × Nat)
  sizesOpenErrno : String → Option Nat
  removeOk : String → Bool

/-! ### query_yes_no (lines 113-143) -/

/-- Result of `query_yes_no`: an answer, the `ValueError` raised for an
invalid default, or exhaustion of the modelled input lines (the Python loop
would keep prompting; a finite oracle can run out). -/
inductive QAnswer where
  | ans (b : Bool) : QAnswer
  | valueError : QAnswer
  | exhausted : QAnswer
  deriving Repr, DecidableEq

/-- Python `str.lower()` (over the ASCII inputs that occur here): lower-case
each character. -/
def pyLower (s : String) : String := String.mk (s.data.map Char.toLower)

/-- The `valid` dict of line 123: `yes`, `y`, `ye` map to true and `no`, `n`
to false. -/
def qvalid : String → Option Bool
  | "yes" => some true
  | "y" => some true
  | "ye" => some true
  | "no" => some false
  | "n" => some false
  | _ => none

/-- The `while True` loop of lines 134-143 over the remaining input lines:
an empty line takes the default when one is set, a line in `valid` answers,
anything else re-prompts. -/
def query_loop (dflt : Option String) : List String → QAnswer
  | [] => .exhausted
  | c :: rest =>
    let choice := pyLower c
    if dflt ≠ none ∧ choice = "" then
      .ans ((qvalid (dflt.getD "")).getD false)
    else
      match qvalid choice with
      | some b => .ans b
      | none => query_loop dflt rest

/-- Lines 113-143.  Validates the default (raising `ValueError` otherwise,
line 132) and runs the prompt loop.  `valid[default]` for a default of
`"yes"`/`"no"` is true/false, which `query_loop` computes via `qvalid`. -/
def query_yes_no (dflt : Option String) (inputs : List String) : QAnswer :=
  if dflt = none ∨ dflt = some "yes" ∨ dflt = some "no" then
    query_loop dflt inputs
  else .valueError

/-! ### Stage wrappers (lines 145-177 and 209-233)

Each wrapper returns either the bare boolean `False` (line 153/156, the
permission-denial paths) or the pair `rc == 0, rc` (line 177/233) — in
Python the latter is a tuple, and the caller in `main` truth-tests the
returned value (`if not bam_to_wig(...)`), so the two return shapes must be
kept apart to model truthiness faithfully. -/

/-- Value returned by `bam_to_wig` / `wig_to_bigwig`: the bool `False` or
the tuple `(rc == 0, rc)`. -/
inductive StageRet where
  | permFalse : StageRet
  | tuple (ok : Bool) (rc : Int) : StageRet
  deriving Repr, DecidableEq

/-- Python truthiness of a `StageRet`: `False` is falsy; a tuple of two
elements is a non-empty tuple, hence truthy regardless of its contents. -/
def stageTruthy : StageRet → Bool
  | .permFalse => false
  | .tuple _ _ => true

/-- Renders an `RcKind` into the `log.critical` calls of lines 169-176 /
225-232 (the format strings are identical in the two wrappers). -/
def rc_report_events (cl : List String) : RcKind → List Event
  | .success => []
  | .nonzeroExit rc =>
      [.logCritical ("\"" ++ String.intercalate " " cl ++
        "\" terminated with non-zero return code: " ++ toString rc)]
  | .signalNamed n nm dp ds =>
      [.logCritical ("\"" ++ String.intercalate " " cl ++
        "\" was terminated by signal " ++ toString n ++ ": " ++ nm ++ ", " ++
        dp ++ ", " ++ ds)]
  | .signalBare n =>
      [.logCritical ("\"" ++ String.intercalate " " cl ++
        "\" was terminated by signal " ++ toString n)]

/-- Lines 145-177, `bam_to_wig`, generalised over the signal registry `reg`
(the script reads the module-level `unix_signals`; see `bam_to_wig`).
Structure: compute the file stem, default the wig name if falsy (empty),
pre-check write permission (on the file itself when it exists as a file,
else on the directory of its absolute path), build the command line with the
four optional ignore flags, launch, and classify the exit status. -/
def bam_to_wig_core (reg : List (Int × List String)) (w : World)
    (bam_filename wig_filename0 : String)
    (ignore_secondary ignore_qc_fail ignore_optical_pcr_duplicate
     ignore_supplementary : Bool) : StageRet × List Event :=
  let fileStem := w.fs.splitext0 bam_filename
  let wig_filename := if wig_filename0 = "" then fileStem ++ ".wig" else wig_filename0
  let run : Unit → StageRet × List Event := fun _ =>
    let cl := ["rsem-bam2wig", bam_filename, wig_filename, fileStem,
               "--no-fractional-weight"]
      ++ (if ignore_secondary then ["--ignore-secondary"] else [])
      ++ (if ignore_qc_fail then ["--ignore-qc-fail"] else [])
      ++ (if ignore_optical_pcr_duplicate then ["--ignore-optical-pcr-duplicate"] else [])
      ++ (if ignore_supplementary then ["--ignore-supplementary"] else [])
    let rc := w.runner cl
    (.tuple (rc == 0) rc,
     Event.popen cl :: rc_report_events cl (bam_to_wig_classify reg rc))
  if w.fs.isfile wig_filename then
    if ¬ w.fs.access_w wig_filename then
      (.permFalse,
       [.logCritical ("Write permission denied: " ++ w.fs.abspath wig_filename)])
    else run ()
  else if ¬ w.fs.access_w (w.fs.dirname (w.fs.abspath wig_filename)) then
    (.permFalse,
     [.logCritical ("Write permission denied: " ++
        w.fs.dirname (w.fs.abspath wig_filename))])
  else run ()

/-- `bam_to_wig` as the script runs it: over the module-level registry. -/
def bam_to_wig (w : World) (bam_filename wig_filename0 : String)
    (ignore_secondary ignore_qc_fail ignore_optical_pcr_duplicate
     ignore_supplementary : Bool) : StageRet × List Event :=
  bam_to_wig_core unix_signals w bam_filename wig_filename0 ignore_secondary
    ignore_qc_fail ignore_optical_pcr_duplicate ignore_supplementary

/-- Lines 209-233, `wig_to_bigwig`, generalised over the registry: same
permission pre-check on the output path, then
`cl = ['wigToBigWig', wig, chr_sizes, bigwig]`, launch and classify. -/
def wig_to_bigwig_core (reg : List (Int × List String)) (w : World)
    (wig_filename bigwig_filename0 chr_sizes_filename : String) :
    StageRet × List Event :=
  let fileStem := w.fs.splitext0 wig_filename
  let bigwig_filename :=
    if bigwig_filename0 = "" then fileStem ++ ".bigwig" else bigwig_filename0
  let run : Unit → StageRet × List Event := fun _ =>
    let cl := ["wigToBigWig", wig_filename, chr_sizes_filename, bigwig_filename]
    let rc := w.runner cl
    (.tuple (rc == 0) rc,
     Event.popen cl :: rc_report_events cl (wig_to_bigwig_classify reg rc))
  if w.fs.isfile bigwig_filename then
    if ¬ w.fs.access_w bigwig_filename then
      (.permFalse,
       [.logCritical ("Write permission denied: " ++ w.fs.abspath bigwig_filename)])
    else run ()
  else if ¬ w.fs.access_w (w.fs.dirname (w.fs.abspath bigwig_filename)) then
    (.permFalse,
     [.logCritical ("Write permission denied: " ++
        w.fs.dirname (w.fs.abspath bigwig_filename))])
  else run ()

/-- `wig_to_bigwig` as the script runs it: over the module-level registry. -/
def wig_to_bigwig (w : World) (wig_filename bigwig_filename0 chr_sizes_filename : String) :
    StageRet × List Event :=
  wig_to_bigwig_core unix_signals w wig_filename bigwig_filename0 chr_sizes_filename

/-! ### Index accessor (lines 179-191) -/

/-- Lines 179-186 define `indexed_bam` as a `@contextmanager` generator:
```
sam_reader = pysam.Samfile(bam_filename, "rb")
yield sam_reader
sam_reader.close()
```
with no `try`/`finally`.  `indexed_bam_with bodyResult` models executing
`with indexed_bam(f) as b: body` where `body` (reading the reference
catalog) finishes with `bodyResult`: on normal completion `contextlib`
resumes the generator past the `yield`, so `sam_reader.close()` runs; on an
exception, `contextlib` throws the exception into the generator at the
`yield`, and with no enclosing `try` it propagates at once, so the
statements after the `yield` — including the `close()` — never run.  The
returned boolean records whether the handle was closed. -/
def indexed_bam_with {α : Type} (bodyResult : Except String α) :
    Except String α × Bool :=
  match bodyResult with
  | .ok a => (.ok a, true)
  | .error e => (.error e, false)

/-- Lines 188-191, `get_sizes_from_bam`: runs
`zip(work_bam.references, work_bam.lengths)` (an oracle for `pysam`) in the
scope of `indexed_bam`. -/
def get_sizes_from_bam (readResult : Except String (List (String × Nat))) :
    Except String (List (String × Nat)) × Bool :=
  indexed_bam_with readResult

/-! ### Size-table writer (lines 193-207) -/

/-- The bytes written by the loop of lines 205-206:
`fp.write("%s\t%s\n" % (chrom, size))` for each pair, in order (`%s` of an
int is its decimal representation). -/
def sizes_content (chr_sizes : List (String × Nat)) : String :=
  chr_sizes.foldl (fun acc p => acc ++ p.1 ++ "\t" ++ toString p.2 ++ "\n") ""

/-- Result of `bam_to_sizes`: `True`, `False` (the `EACCES` path of
lines 198-200), or an `IOError` re-raised by line 202. -/
inductive SizesRet where
  | ok : SizesRet
  | permFalse : SizesRet
  | reraised (eno : Nat) : SizesRet
  deriving Repr, DecidableEq

/-- Value of `errno.EACCES` on Unix. -/
def EACCES : Nat := 13

/-- Lines 193-207, `bam_to_sizes`: obtain the catalog (oracle
`w.chr_sizes`; the `pysam` read is assumed to succeed here, the error path
of the context manager is modelled by `indexed_bam_with`), open the target
for writing — a permission-denied `IOError` logs and returns `False`, any
other `IOError` is re-raised — and on success write one `name<TAB>size`
line per reference. -/
def bam_to_sizes (w : World) (bam_filename chr_sizes_filename : String) :
    SizesRet × List Event :=
  let chr_sizes := w.chr_sizes
  match w.sizesOpenErrno chr_sizes_filename with
  | some eno =>
    if eno = EACCES then
      (.permFalse,
       [.logCritical ("Write permission denied: " ++ w.fs.abspath chr_sizes_filename)])
    else (.reraised eno, [])
  | none =>
    (.ok, [.sizesWritten chr_sizes_filename (sizes_content chr_sizes)])

/-! ### Pipeline controller `main` (lines 235-278) -/

/-- How one call of `main` ends: `sys.exit(code)` (raising `SystemExit`),
an uncaught exception, falling off the end (returning `None`), or an
interactive prompt whose modelled input lines ran out (the Python loop
would re-prompt forever). -/
inductive MainOutcome where
  | exited (code : Int) : MainOutcome
  | raised (msg : String) : MainOutcome
  | finished : MainOutcome
  | hung : MainOutcome
  deriving Repr, DecidableEq

/-- Lines 247-278 of `main`: the pipeline run after the two precondition
checks passed.  Stage 1 (`bam_to_wig`), the size table (`bam_to_sizes`),
stage 2 (`wig_to_bigwig`), then `os.remove` of the sizes file and the wig
file unless `keep_tempfile`.  `if not <wrapper>(...): sys.exit(1)` is the
truth-test of the wrapper's return value — `stageTruthy` — and a failed
`os.remove` raises an uncaught `OSError`. -/
def main_pipeline (w : World) (bam_filename bigwig_filename fileStem : String)
    (use_tempfile keep_tempfile ignore_secondary ignore_qc_fail
     ignore_optical_pcr_duplicate ignore_supplementary : Bool) :
    MainOutcome × List Event :=
  let wig_filename := if use_tempfile then w.tempWig else fileStem ++ ".wig"
  let ev1 := [Event.stdoutWrite ("Building wig file: " ++ wig_filename ++ " ...\n")]
  let r1 := bam_to_wig w bam_filename wig_filename ignore_secondary
    ignore_qc_fail ignore_optical_pcr_duplicate ignore_supplementary
  if ¬ stageTruthy r1.1 then (.exited 1, ev1 ++ r1.2)
  else
  let ev2 := ev1 ++ r1.2 ++ [Event.stdoutWrite "Done\n"]
  let chr_sizes_filename := if use_tempfile then w.tempSizes else fileStem ++ ".sizes"
  let ev3 := ev2 ++
    [Event.stdoutWrite ("Building sizes file: " ++ chr_sizes_filename ++ " ...")]
  match bam_to_sizes w bam_filename chr_sizes_filename with
  | (.reraised eno, evB) => (.raised ("IOError errno " ++ toString eno), ev3 ++ evB)
  | (.permFalse, evB) =>
      (.exited 1, ev3 ++ evB ++ [Event.stdoutWrite " Failed\n"])
  | (.ok, evB) =>
    let ev4 := ev3 ++ evB ++ [Event.stdoutWrite " Done\n"]
    let ev5 := ev4 ++
      [Event.stdoutWrite ("Building bigwig file: " ++ bigwig_filename ++ " ...")]
    let r2 := wig_to_bigwig w wig_filename bigwig_filename chr_sizes_filename
    if ¬ stageTruthy r2.1 then
      (.exited 1, ev5 ++ r2.2 ++ [Event.stdoutWrite " Failed\n"])
    else
    let ev6 := ev5 ++ r2.2 ++ [Event.stdoutWrite " Done\n"]
    if keep_tempfile then (.finished, ev6)
    else if w.removeOk chr_sizes_filename then
      let ev7 := ev6 ++ [Event.remove chr_sizes_filename]
      if w.removeOk wig_filename then (.finished, ev7 ++ [Event.remove wig_filename])
      else (.raised ("OSError: remove " ++ wig_filename), ev7)
    else (.raised ("OSError: remove " ++ chr_sizes_filename), ev6)

/-- Lines 237-239: the output path `main` works with — the override when
one was given, else `<stem>.bigwig`. -/
def resolved_bigwig (w : World) (bam_filename : String) :
    Option String → String
  | none => w.fs.splitext0 bam_filename ++ ".bigwig"
  | some s => s

/-- Lines 235-245 of `main`: default the output name to
`<stem>.bigwig`, fail when the absolute paths of input and output coincide
(line 240, `sys.exit(1)`), ask for confirmation when the output exists
non-empty (line 243, declining is `sys.exit(1)`), then run the pipeline. -/
def main (w : World) (bam_filename : String) (bigwig_filename0 : Option String)
    (use_tempfile keep_tempfile ignore_secondary ignore_qc_fail
     ignore_optical_pcr_duplicate ignore_supplementary : Bool) :
    MainOutcome × List Event :=
  let fileStem := w.fs.splitext0 bam_filename
  let bigwig_filename := resolved_bigwig w bam_filename bigwig_filename0
  if w.fs.abspath bam_filename = w.fs.abspath bigwig_filename then
    (.exited 1, [.stderrWrite "Bad arguments, input and output files are the same.\n"])
  else
  let rest : Unit → MainOutcome × List Event := fun _ =>
    main_pipeline w bam_filename bigwig_filename fileStem use_tempfile
      keep_tempfile ignore_secondary ignore_qc_fail
      ignore_optical_pcr_duplicate ignore_supplementary
  if w.fs.path_exists bigwig_filename ∧ 0 < w.fs.getsize bigwig_filename then
    match query_yes_no (some "no") w.inputs with
    | .ans true => rest ()
    | .ans false => (.exited 1, [])
    | .valueError => (.raised "ValueError", [])
    | .exhausted => (.hung, [])
  else rest ()

/-! ### Script entry (lines 280-342) -/

/-- Availability of the three dependencies probed by `dependences_exist`:
whether `import pysam` succeeds and whether launching each external tool
raises `OSError` (i.e. the tool is on the search path). -/
structure DepWorld where
  pysam_ok : Bool
  wigToBigWig_ok : Bool
  rsem_ok : Bool
  deriving Repr, DecidableEq

/-- Lines 280-307, `dependences_exist`: probes the three dependencies in
order, logging one `Missing dependency` diagnostic per missing one, and
returns whether all are present. -/
def dependences_exist (d : DepWorld) : Bool × List Event :=
  let (g1, e1) :=
    if d.pysam_ok then (true, ([] : List Event))
    else (false, [.logCritical
      "Missing dependency: pysam (https://github.com/pysam-developers/pysam)"])
  let (g2, e2) :=
    if d.wigToBigWig_ok then (true, [Event.probe "wigToBigWig"])
    else (false, [Event.probe "wigToBigWig", .logCritical
      "Missing dependency: wigToBigWig from UCSC (http://hgdownload.cse.ucsc.edu/admin/exe/)"])
  let (g3, e3) :=
    if d.rsem_ok then (true, [Event.probe "rsem-bam2wig"])
    else (false, [Event.probe "rsem-bam2wig", .logCritical
      "Missing dependency: rsem-bam2wig from RSEM (http://deweylab.biostat.wisc.edu/rsem/)"])
  (g1 && g2 && g3, e1 ++ e2 ++ e3)

/-- How the whole process ends: normal termination with an exit status, or
an uncaught exception (traceback, non-zero status not modelled further). -/
inductive ScriptOutcome where
  | exitCode (c : Int) : ScriptOutcome
  | crashed (msg : String) : ScriptOutcome
  | hung : ScriptOutcome
  deriving Repr, DecidableEq

/-- Options parsed at lines 314-321 and forwarded as `kwargs`. -/
structure Opts where
  bigwig_filename : Option String
  use_tempfile : Bool
  keep_tempfile : Bool
  ignore_secondary : Bool
  ignore_qc_fail : Bool
  ignore_optical_pcr_duplicate : Bool
  ignore_supplementary : Bool

/-- Lines 337-339: `for bam_filename in args: main(bam_filename, **kwargs)`.
Only `KeyboardInterrupt` is caught around the loop, so a `SystemExit`
raised inside `main` terminates the process with that code and an uncaught
exception crashes it; in both cases the remaining files are not reached.
Falling out of the loop ends the script normally (status 0). -/
def main_loop (w : World) (o : Opts) : List String → ScriptOutcome × List Event
  | [] => (.exitCode 0, [])
  | bam_filename :: rest =>
    match main w bam_filename o.bigwig_filename o.use_tempfile o.keep_tempfile
      o.ignore_secondary o.ignore_qc_fail o.ignore_optical_pcr_duplicate
      o.ignore_supplementary with
    | (.exited c, ev) => (.exitCode c, ev)
    | (.raised m, ev) => (.crashed m, ev)
    | (.hung, ev) => (.hung, ev)
    | (.finished, ev) =>
      let r := main_loop w o rest
      (r.1, ev ++ r.2)

/-- Lines 309-342, the `__main__` block: with no positional arguments print
the usage text, run the dependency report and `sys.exit()` (status 0); with
arguments, `if not dependences_exist(): sys.exit()` — note `sys.exit()`
with no argument, i.e. status 0 — and otherwise run `main` over the
files. -/
def script_run (w : World) (d : DepWorld) (o : Opts) (args : List String) :
    ScriptOutcome × List Event :=
  if args = [] then
    let r := dependences_exist d
    (.exitCode 0, Event.stdoutWrite "usage" :: r.2)
  else
    let r := dependences_exist d
    if ¬ r.1 then (.exitCode 0, r.2)
    else
      let l := main_loop w o args
      (l.1, r.2 ++ l.2)

/-! ### Trace predicates and concrete test environments -/

/-- Is the event a subprocess launch (`Popen`)? -/
def isPopen : Event → Bool
  | .popen _ => true
  | _ => false

/-- Is the event an `os.remove` call? -/
def isRemove : Event → Bool
  | .remove _ => true
  | _ => false

/-- Does the event touch the filesystem or launch a pipeline subprocess
(anything beyond terminal/log output and the dependency probes)? -/
def isFileEffect : Event → Bool
  | .popen _ => true
  | .sizesWritten _ _ => true
  | .remove _ => true
  | _ => false

/-- A benign filesystem snapshot: nothing exists yet, everything is
writable, absolute paths live under `/data`. -/
def fs0 : FS :=
  { isfile := fun _ => false,
    path_exists := fun _ => false,
    getsize := fun _ => 0,
    access_w := fun _ => true,
    abspath := fun p => "/data/" ++ p,
    dirname := fun _ => "/data",
    splitext0 := fun p =>
      if p = "sample.bam" then "sample"
      else if p = "a.bam" then "a"
      else if p = "b.bam" then "b"
      else if p = "c.bam" then "c"
      else p }

/-- A benign environment: all permissions granted, every subprocess exits 0,
a two-chromosome catalog, all removals succeed. -/
def w0 : World :=
  { fs := fs0,
    runner := fun _ => 0,
    inputs := [],
    tempWig := "/tmp/wigscratch",
    tempSizes := "/tmp/sizescratch",
    chr_sizes := [("chr1", 1000), ("chr2", 2000)],
    sizesOpenErrno := fun _ => none,
    removeOk := fun _ => true }

/-- Like `w0` but stage 1 (`rsem-bam2wig`) exits with status 1. -/
def w1 : World :=
  { w0 with runner := fun cl => if cl.headD "" = "rsem-bam2wig" then 1 else 0 }

/-- Like `w0` but stage 2 (`wigToBigWig`) exits with status 1. -/
def w1b : World :=
  { w0 with runner := fun cl => if cl.headD "" = "wigToBigWig" then 1 else 0 }

/-- Like `w0` but `a.wig` exists without write permission, so the first
input file `a.bam` fails its stage-1 permission pre-check. -/
def w3 : World :=
  { w0 with fs :=
    { fs0 with
      isfile := fun p => p = "a.wig",
      access_w := fun p => p ≠ "a.wig" } }

/-- Like `w0` but removing `sample.sizes` fails (`os.remove` raises). -/
def w6fail : World :=
  { w0 with removeOk := fun p => p ≠ "sample.sizes" }

/-- All dependencies present. -/
def depsOK : DepWorld := { pysam_ok := true, wigToBigWig_ok := true, rsem_ok := true }

/-- `rsem-bam2wig` missing from the search path, the rest present. -/
def d4 : DepWorld := { pysam_ok := true, wigToBigWig_ok := true, rsem_ok := false }

/-- Default options: no output override, no flags. -/
def opts0 : Opts :=
  { bigwig_filename := none,
    use_tempfile := false,
    keep_tempfile := false,
    ignore_secondary := false,
    ignore_qc_fail := false,
    ignore_optical_pcr_duplicate := false,
    ignore_supplementary := false }

/-- Like `w0` but the default output `sample.bigwig` already exists
non-empty and the interactive user answers with an empty line (taking the
default "no"). -/
def w5 : World :=
  { w0 with
    fs := { fs0 with
      path_exists := fun p => p = "sample.bigwig",
      getsize := fun p => if p = "sample.bigwig" then 10 else 0 },
    inputs := [""] }

/-- Environment for the permission-check witnesses: `w8file.wig` exists as
a file without write permission, the directory `/data` is not writable
(so creating any new file there is denied), opening `eacces.sizes` raises
`IOError` with `errno = EACCES` and opening `eio.sizes` raises `IOError`
with `errno = 5`. -/
def w8 : World :=
  { w0 with
    fs := { fs0 with
      isfile := fun p => p = "w8file.wig",
      access_w := fun s => !(s == "w8file.wig" || s == "/data") },
    sizesOpenErrno := fun s =>
      if s = "eacces.sizes" then some 13
      else if s = "eio.sizes" then some 5
      else none }

/-- The 34 keys of the signal registry, in construction order. -/
def signalKeys : List Int :=
  [-1, -2, -3, -4, -5, -6, -7, -8, -9, -10, -11, -12, -13, -14, -15, -16,
   -17, -18, -19, -20, -21, -22, -23, -24, -25, -26, -27, -28, -29, -30,
   -31, -32, -33, -34]

/-! ## Helper lemmas -/

theorem lookup_isSome_iff {β : Type} (l : List (Int × β)) (k : Int) :
    (l.lookup k).isSome ↔ k ∈ l.map Prod.fst := by
  induction l with
  | nil => simp [List.lookup]
  | cons p t ih =>
    obtain ⟨a, b⟩ := p
    by_cases h : k = a
    · subst h; simp [List.lookup]
    · rw [List.lookup]
      rw [show (k == a) = false from beq_false_of_ne h]
      simp [h, ih]

theorem unix_signals_keys : unix_signals.map Prod.fst = signalKeys := by decide

theorem unix_signals_lookup_isSome (k : Int) :
    (unix_signals.lookup k).isSome ↔ (-34 ≤ k ∧ k ≤ -1) := by
  rw [lookup_isSome_iff, unix_signals_keys]
  constructor
  · intro h
    exact (by decide : ∀ x ∈ signalKeys, -34 ≤ x ∧ x ≤ -1) k h
  · rintro ⟨h1, h2⟩
    interval_cases k <;> decide

theorem sizes_content_foldr (l : List (String × Nat)) :
    sizes_content l =
      (l.map (fun p => p.1 ++ "\t" ++ toString p.2 ++ "\n")).foldr (· ++ ·) "" := by
  unfold sizes_content
  suffices h : ∀ acc : String,
      l.foldl (fun acc p => acc ++ p.1 ++ "\t" ++ toString p.2 ++ "\n") acc
        = acc ++ (l.map (fun p => p.1 ++ "\t" ++ toString p.2 ++ "\n")).foldr (· ++ ·) "" by
    rw [h "", String.empty_append]
  induction l with
  | nil => intro acc; simp [String.append_empty]
  | cons p t ih =>
    intro acc
    simp only [List.foldl_cons, List.map_cons, List.foldr_cons]
    rw [ih]
    simp [String.append_assoc]

theorem rc_report_events_no_remove (cl : List String) (k : RcKind) :
    (rc_report_events cl k).filter isRemove = [] := by
  cases k <;> rfl

theorem bam_to_wig_core_no_remove (reg : List (Int × List String)) (w : World)
    (bam wig0 : String) (a b c d : Bool) :
    ((bam_to_wig_core reg w bam wig0 a b c d).2).filter isRemove = [] := by
  unfold bam_to_wig_core
  dsimp only
  repeat' split
  all_goals simp [rc_report_events_no_remove, isRemove]

theorem wig_to_bigwig_core_no_remove (reg : List (Int × List String)) (w : World)
    (wig bw0 cs : String) :
    ((wig_to_bigwig_core reg w wig bw0 cs).2).filter isRemove = [] := by
  unfold wig_to_bigwig_core
  dsimp only
  repeat' split
  all_goals simp [rc_report_events_no_remove, isRemove]

theorem bam_to_sizes_no_remove (w : World) (bam csf : String) :
    ((bam_to_sizes w bam csf).2).filter isRemove = [] := by
  unfold bam_to_sizes
  dsimp only
  repeat' split
  all_goals simp [isRemove]

/-! ## Claims -/

/-- C10: the signal registry built at module load has exactly the keys
`-1 .. -34`; each value is the split row whose first component is the
decimal representation of the negated key; and the registry contents are
only used for diagnostic messages — the `StageRet` value each wrapper
returns (which is all the controller's control flow consumes) is identical
under any two registries.  (The registry itself is a top-level constant of
the embedding, never written after construction, matching the script which
only ever reads `unix_signals` after line 111.) -/
theorem C10_signal_registry :
    (∀ k : Int, (unix_signals.lookup k).isSome ↔ (-34 ≤ k ∧ k ≤ -1))
    ∧ (∀ p ∈ unix_signals, p.2.headD "" = toString (-p.1))
    ∧ (∀ reg₁ reg₂ w bam wig0 a b c d,
        (bam_to_wig_core reg₁ w bam wig0 a b c d).1 =
          (bam_to_wig_core reg₂ w bam wig0 a b c d).1)
    ∧ (∀ reg₁ reg₂ w wig bw0 cs,
        (wig_to_bigwig_core reg₁ w wig bw0 cs).1 =
          (wig_to_bigwig_core reg₂ w wig bw0 cs).1) := by
  refine ⟨unix_signals_lookup_isSome, by decide, ?_, ?_⟩
  · intro reg₁ reg₂ w bam wig0 a b c d
    unfold bam_to_wig_core
    dsimp only
    repeat' split
    all_goals rfl
  · intro reg₁ reg₂ w wig bw0 cs
    unfold wig_to_bigwig_core
    dsimp only
    repeat' split
    all_goals rfl

/-- C10 witness: the registry entry for key `-9` has first component `"9"`,
and the key-domain equivalence instantiated at `-9`. -/
theorem C10_signal_registry_witness :
    (((-9 : Int), ["9", "SIGKILL", "Exit", "Killed"]).2.headD "" =
      toString (-((-9 : Int), ["9", "SIGKILL", "Exit", "Killed"]).1))
    ∧ ((unix_signals.lookup (-9)).isSome ↔ (-34 ≤ (-9 : Int) ∧ (-9 : Int) ≤ -1)) :=
  ⟨C10_signal_registry.2.1 _ (by decide), C10_signal_registry.1 (-9)⟩

/-- C2: both stage wrappers interpret a raw exit status identically:
`rc = 0` is success, `rc > 0` a normal non-zero exit reported with the
status, `rc < 0` killed-by-signal; the report carries the registry entry's
name, disposition and description exactly when `-rc ∈ {1..34}` (i.e.
`-34 ≤ rc`), and otherwise only the bare signal number. -/
theorem C2_rc_classification : ∀ rc : Int,
    bam_to_wig_classify unix_signals rc = wig_to_bigwig_classify unix_signals rc
    ∧ (rc = 0 → bam_to_wig_classify unix_signals rc = .success)
    ∧ (0 < rc → bam_to_wig_classify unix_signals rc = .nonzeroExit rc)
    ∧ (rc < 0 → -34 ≤ rc →
        ∃ t, unix_signals.lookup rc = some t ∧
          bam_to_wig_classify unix_signals rc =
            .signalNamed (-rc) (t.getD 1 "") (t.getD 2 "") (t.getD 3 ""))
    ∧ (rc < -34 → bam_to_wig_classify unix_signals rc = .signalBare (-rc)) := by
  intro rc
  refine ⟨rfl, ?_, ?_, ?_, ?_⟩
  · intro h; subst h; rfl
  · intro h
    unfold bam_to_wig_classify
    rw [if_pos (by omega : rc ≠ 0), if_neg (by omega : ¬ rc < 0)]
  · intro h1 h2
    have hs : (unix_signals.lookup rc).isSome :=
      (unix_signals_lookup_isSome rc).mpr ⟨h2, by omega⟩
    obtain ⟨t, ht⟩ := Option.isSome_iff_exists.mp hs
    refine ⟨t, ht, ?_⟩
    unfold bam_to_wig_classify
    rw [if_pos (by omega : rc ≠ 0), if_pos h1, ht]
  · intro h
    have hn : unix_signals.lookup rc = none := by
      rcases hopt : unix_signals.lookup rc with _ | t
      · rfl
      · exfalso
        have hs : (unix_signals.lookup rc).isSome := by rw [hopt]; rfl
        have := (unix_signals_lookup_isSome rc).mp hs
        omega
    unfold bam_to_wig_classify
    rw [if_pos (by omega : rc ≠ 0), if_pos (by omega : rc < 0), hn]

/-- C2 witness: the classification at `rc = -9` (SIGKILL, in the registry),
`rc = 7` (plain non-zero exit) and `rc = -99` (signal outside the
registry). -/
theorem C2_rc_classification_witness :
    (∃ t, unix_signals.lookup (-9 : Int) = some t ∧
        bam_to_wig_classify unix_signals (-9) =
          .signalNamed (-(-9 : Int)) (t.getD 1 "") (t.getD 2 "") (t.getD 3 ""))
    ∧ bam_to_wig_classify unix_signals 7 = .nonzeroExit 7
    ∧ bam_to_wig_classify unix_signals (-99) = .signalBare (-(-99 : Int)) :=
  ⟨(C2_rc_classification (-9)).2.2.2.1 (by decide) (by decide),
   (C2_rc_classification 7).2.2.1 (by decide),
   (C2_rc_classification (-99)).2.2.2.2 (by decide)⟩

/-- C9 counterexample: when the body of the `with indexed_bam(...)` block
raises while reading the reference catalog, the handle is not closed — the
generator has no `try`/`finally`, so `sam_reader.close()` is skipped. -/
theorem C9_counterexample :
    (indexed_bam_with (Except.error "error reading the reference catalog" :
        Except String (List (String × Nat)))).2 = false := rfl

/-- C9 amended: `indexed_bam` closes the handle exactly on the normal exit
path; when the body raises, the exception propagates unchanged and the
handle leaks.  `get_sizes_from_bam` runs its catalog read in that scope. -/
theorem C9_amended : ∀ r : Except String (List (String × Nat)),
    get_sizes_from_bam r = indexed_bam_with r
    ∧ ((indexed_bam_with r).2 = true ↔ ∃ a, r = Except.ok a)
    ∧ (indexed_bam_with r).1 = r := by
  intro r
  refine ⟨rfl, ?_, ?_⟩ <;> cases r <;> simp [indexed_bam_with]

/-- C9 amended witness: on a normal read of a one-chromosome catalog the
handle is closed. -/
theorem C9_amended_witness :
    get_sizes_from_bam (Except.ok [("chr1", 1000)]) =
      indexed_bam_with (Except.ok [("chr1", 1000)])
    ∧ (indexed_bam_with
        (Except.ok [("chr1", 1000)] : Except String (List (String × Nat)))).2 = true :=
  ⟨(C9_amended (Except.ok [("chr1", 1000)])).1,
   ((C9_amended (Except.ok [("chr1", 1000)])).2.1).mpr ⟨_, rfl⟩⟩

/-- C7: the size table is exactly one `name<TAB>length` line per reference,
in catalog order, with no header — the written content is the concatenation
of the per-reference lines — and for the catalog
`[("chr1", 1000), ("chr2", 2000)]` the content is exactly
`"chr1\t1000\nchr2\t2000\n"`; `bam_to_sizes` writes exactly this content to
the target file when the open succeeds. -/
theorem C7_size_table :
    (∀ catalog : List (String × Nat),
        sizes_content catalog =
          (catalog.map (fun p => p.1 ++ "\t" ++ toString p.2 ++ "\n")).foldr (· ++ ·) "")
    ∧ sizes_content [("chr1", 1000), ("chr2", 2000)] = "chr1\t1000\nchr2\t2000\n"
    ∧ (∀ w bam csf, w.sizesOpenErrno csf = none →
        bam_to_sizes w bam csf =
          (.ok, [.sizesWritten csf (sizes_content w.chr_sizes)])) := by
  refine ⟨sizes_content_foldr, by decide, ?_⟩
  intro w bam csf h
  unfold bam_to_sizes
  rw [h]

/-- C7 witness: in the benign environment `w0` (whose catalog is the
two-chromosome one of the claim) `bam_to_sizes` writes exactly the claimed
bytes. -/
theorem C7_size_table_witness :
    bam_to_sizes w0 "sample.bam" "sample.sizes" =
      (.ok, [.sizesWritten "sample.sizes" (sizes_content w0.chr_sizes)]) :=
  C7_size_table.2.2 w0 "sample.bam" "sample.sizes" rfl

/-- C8: the permission pre-check of the stage wrappers tests the file
itself when the target exists as a file and otherwise the directory of its
absolute path; a denial returns the bare `False` (no exception, no
subprocess launched).  In `bam_to_sizes`, an `EACCES` open failure returns
`False` and any other `IOError` propagates (is re-raised). -/
theorem C8_permission_checks : ∀ (w : World) (p q csf : String) (a b c d : Bool),
    (p ≠ "" → w.fs.isfile p = true → w.fs.access_w p = false →
      bam_to_wig w q p a b c d =
        (.permFalse, [.logCritical ("Write permission denied: " ++ w.fs.abspath p)]))
    ∧ (p ≠ "" → w.fs.isfile p = false →
        w.fs.access_w (w.fs.dirname (w.fs.abspath p)) = false →
        bam_to_wig w q p a b c d =
          (.permFalse, [.logCritical ("Write permission denied: " ++
            w.fs.dirname (w.fs.abspath p))]))
    ∧ (p ≠ "" → w.fs.isfile p = true → w.fs.access_w p = false →
        wig_to_bigwig w q p csf =
          (.permFalse, [.logCritical ("Write permission denied: " ++ w.fs.abspath p)]))
    ∧ (p ≠ "" → w.fs.isfile p = false →
        w.fs.access_w (w.fs.dirname (w.fs.abspath p)) = false →
        wig_to_bigwig w q p csf =
          (.permFalse, [.logCritical ("Write permission denied: " ++
            w.fs.dirname (w.fs.abspath p))]))
    ∧ (w.sizesOpenErrno csf = some EACCES →
        bam_to_sizes w q csf =
          (.permFalse, [.logCritical ("Write permission denied: " ++ w.fs.abspath csf)]))
    ∧ (∀ e, w.sizesOpenErrno csf = some e → e ≠ EACCES →
        bam_to_sizes w q csf = (.reraised e, [])) := by
  intro w p q csf a b c d
  refine ⟨?_, ?_, ?_, ?_, ?_, ?_⟩
  · intro h0 h1 h2
    simp only [bam_to_wig, bam_to_wig_core]
    rw [if_neg h0]
    simp [h1, h2]
  · intro h0 h1 h2
    simp only [bam_to_wig, bam_to_wig_core]
    rw [if_neg h0]
    simp [h1, h2]
  · intro h0 h1 h2
    simp only [wig_to_bigwig, wig_to_bigwig_core]
    rw [if_neg h0]
    simp [h1, h2]
  · intro h0 h1 h2
    simp only [wig_to_bigwig, wig_to_bigwig_core]
    rw [if_neg h0]
    simp [h1, h2]
  · intro h
    simp only [bam_to_sizes]
    rw [h]
    simp
  · intro e h hne
    simp only [bam_to_sizes]
    rw [h]
    simp [hne]

/-- C8 witness: the six permission-check behaviours at concrete paths in
the environment `w8`. -/
theorem C8_permission_checks_witness :
    bam_to_wig w8 "sample.bam" "w8file.wig" false false false false =
      (.permFalse, [.logCritical ("Write permission denied: " ++ w8.fs.abspath "w8file.wig")])
    ∧ bam_to_wig w8 "sample.bam" "new.wig" false false false false =
      (.permFalse, [.logCritical ("Write permission denied: " ++
        w8.fs.dirname (w8.fs.abspath "new.wig"))])
    ∧ wig_to_bigwig w8 "sample.wig" "w8file.wig" "x.sizes" =
      (.permFalse, [.logCritical ("Write permission denied: " ++ w8.fs.abspath "w8file.wig")])
    ∧ wig_to_bigwig w8 "sample.wig" "new.bigwig" "x.sizes" =
      (.permFalse, [.logCritical ("Write permission denied: " ++
        w8.fs.dirname (w8.fs.abspath "new.bigwig"))])
    ∧ bam_to_sizes w8 "sample.bam" "eacces.sizes" =
      (.permFalse, [.logCritical ("Write permission denied: " ++ w8.fs.abspath "eacces.sizes")])
    ∧ bam_to_sizes w8 "sample.bam" "eio.sizes" = (.reraised 5, []) :=
  ⟨(C8_permission_checks w8 "w8file.wig" "sample.bam" "x.sizes" false false false false).1
      (by decide) (by decide) (by decide),
   (C8_permission_checks w8 "new.wig" "sample.bam" "x.sizes" false false false false).2.1
      (by decide) (by decide) (by decide),
   (C8_permission_checks w8 "w8file.wig" "sample.wig" "x.sizes" false false false false).2.2.1
      (by decide) (by decide) (by decide),
   (C8_permission_checks w8 "new.bigwig" "sample.wig" "x.sizes" false false false false).2.2.2.1
      (by decide) (by decide) (by decide),
   (C8_permission_checks w8 "p" "sample.bam" "eacces.sizes" false false false false).2.2.2.2.1
      (by decide),
   (C8_permission_checks w8 "p" "sample.bam" "eio.sizes" false false false false).2.2.2.2.2
      5 (by decide) (by decide)⟩

/-- C5: when the resolved output path has the same absolute path as the
input, or the output exists non-empty and the (default-"no") confirmation
resolves to a decline, `main` raises `SystemExit(1)` and its trace contains
no subprocess launch; moreover an empty answer line takes the default and
declines. -/
theorem C5_preconditions : ∀ (w : World) (bam : String) (bw0 : Option String)
    (ut kt a b c d : Bool),
    ((w.fs.abspath bam = w.fs.abspath (resolved_bigwig w bam bw0)
      ∨ (w.fs.path_exists (resolved_bigwig w bam bw0) = true
         ∧ 0 < w.fs.getsize (resolved_bigwig w bam bw0)
         ∧ query_yes_no (some "no") w.inputs = .ans false)) →
      (main w bam bw0 ut kt a b c d).1 = .exited 1
      ∧ (main w bam bw0 ut kt a b c d).2.filter isPopen = [])
    ∧ (∀ rest : List String, query_yes_no (some "no") ("" :: rest) = .ans false) := by
  intro w bam bw0 ut kt a b c d
  constructor
  · intro h
    by_cases heq : w.fs.abspath bam = w.fs.abspath (resolved_bigwig w bam bw0)
    · simp only [main]
      rw [if_pos heq]
      exact ⟨rfl, rfl⟩
    · rcases h with h | ⟨h1, h2, h3⟩
      · exact absurd h heq
      · simp only [main]
        rw [if_neg heq, if_pos ⟨h1, h2⟩, h3]
        exact ⟨rfl, rfl⟩
  · intro rest
    rfl

/-- C5 witness: in `w5` the output `sample.bigwig` exists non-empty, the
user's empty input line declines by default, and `main` exits 1 without
launching anything. -/
theorem C5_preconditions_witness :
    ((main w5 "sample.bam" none false false false false false false).1 = .exited 1
      ∧ (main w5 "sample.bam" none false false false false false false).2.filter isPopen = [])
    ∧ query_yes_no (some "no") ("" :: []) = .ans false :=
  ⟨(C5_preconditions w5 "sample.bam" none false false false false false false).1
      (Or.inr ⟨by decide, by decide, by decide⟩),
   (C5_preconditions w5 "sample.bam" none false false false false false false).2 []⟩

/-- C1 (code bug): with stage 1 exiting 1 in `w1`, `main` does NOT abort —
it logs the failure but `bam_to_wig` returns the pair `(rc == 0, rc)`
(line 177), a non-empty tuple and hence truthy, so `if not bam_to_wig(...)`
at line 253 does not fire: the run continues into the size-table derivation
and stage 2 and the process exits 0; likewise with stage 2 exiting 1 in
`w1b` the overall exit status is 0. -/
theorem C1_stage_failure_not_fatal :
    (main w1 "sample.bam" none false false false false false false).1 = .finished
    ∧ Event.logCritical
        "\"rsem-bam2wig sample.bam sample.wig sample --no-fractional-weight\" terminated with non-zero return code: 1"
        ∈ (main w1 "sample.bam" none false false false false false false).2
    ∧ Event.sizesWritten "sample.sizes" "chr1\t1000\nchr2\t2000\n"
        ∈ (main w1 "sample.bam" none false false false false false false).2
    ∧ Event.popen ["wigToBigWig", "sample.wig", "sample.sizes", "sample.bigwig"]
        ∈ (main w1 "sample.bam" none false false false false false false).2
    ∧ (script_run w1 depsOK opts0 ["sample.bam"]).1 = .exitCode 0
    ∧ (main w1b "sample.bam" none false false false false false false).1 = .finished
    ∧ (script_run w1b depsOK opts0 ["sample.bam"]).1 = .exitCode 0 :=
  ⟨by decide, by decide, by decide, by decide, by decide, by decide, by decide⟩

/-- C3 counterexample: in `w3` the first file's pipeline fails (permission
denied on `a.wig`), and the whole invocation with a second file behaves
exactly as the invocation without it — `b.bam` is never processed, the
process has already exited with status 1. -/
theorem C3_counterexample :
    main_loop w3 opts0 ["a.bam", "b.bam"] = main_loop w3 opts0 ["a.bam"]
    ∧ (main_loop w3 opts0 ["a.bam", "b.bam"]).1 = .exitCode 1
    ∧ (main_loop w3 opts0 ["a.bam", "b.bam"]).2.filter isPopen = [] :=
  ⟨by decide, by decide, by decide⟩

/-- C3 amended: a failure in one input file's pipeline that reaches
`sys.exit` terminates the whole process with that status — the loop at
lines 337-339 catches only `KeyboardInterrupt` — so the subsequent input
files are not processed at all (the run's trace is exactly the failing
file's trace). -/
theorem C3_amended : ∀ (w : World) (o : Opts) (bam : String) (rest : List String)
    (c : Int) (ev : List Event),
    main w bam o.bigwig_filename o.use_tempfile o.keep_tempfile o.ignore_secondary
      o.ignore_qc_fail o.ignore_optical_pcr_duplicate o.ignore_supplementary
      = (.exited c, ev) →
    main_loop w o (bam :: rest) = (.exitCode c, ev) := by
  intro w o bam rest c ev h
  simp only [main_loop]
  rw [h]

/-- C3 amended witness: the two-file run in `w3` stops at the first file's
permission failure with exit status 1. -/
theorem C3_amended_witness :
    main_loop w3 opts0 ["a.bam", "c.bam"] =
      (.exitCode 1,
       [.stdoutWrite "Building wig file: a.wig ...\n",
        .logCritical "Write permission denied: /data/a.wig"]) :=
  C3_amended w3 opts0 "a.bam" ["c.bam"] 1
    [.stdoutWrite "Building wig file: a.wig ...\n",
     .logCritical "Write permission denied: /data/a.wig"] (by decide)

/-- C4 (code bug): with `rsem-bam2wig` missing, the invocation with one
positional argument logs the per-tool diagnostic and stops before touching
any input file (no subprocess beyond the dependency probes, no file write,
no removal) — but `sys.exit()` at line 328 carries no argument, so the
process exit status is 0, not non-zero. -/
theorem C4_missing_dependency :
    (script_run w0 d4 opts0 ["sample.bam"]).1 = .exitCode 0
    ∧ Event.logCritical
        "Missing dependency: rsem-bam2wig from RSEM (http://deweylab.biostat.wisc.edu/rsem/)"
        ∈ (script_run w0 d4 opts0 ["sample.bam"]).2
    ∧ (script_run w0 d4 opts0 ["sample.bam"]).2.filter isFileEffect = [] :=
  ⟨by decide, by decide, by decide⟩

/-- C6 counterexample: in `w6fail` both stages succeed but deleting
`sample.sizes` fails; `os.remove` raises an uncaught `OSError`, so the
otherwise-successful run (compare `w0`) crashes — the deletion failure
masks the success, and nothing is logged. -/
theorem C6_counterexample :
    (main w6fail "sample.bam" none false false false false false false).1 =
      .raised "OSError: remove sample.sizes"
    ∧ (main w0 "sample.bam" none false false false false false false).1 = .finished :=
  ⟨by decide, by decide⟩

/-- C6 amended: after a run whose two stages succeed, if keep-intermediates
is set no `os.remove` happens (both intermediates are left in place); if it
is not set, the sizes file and then the wig file are removed; but a failure
of either removal raises an uncaught `OSError` that aborts the run,
masking the otherwise-successful outcome. -/
theorem C6_amended : ∀ (w : World) (bam bw stem : String) (a b c d : Bool),
    (bam_to_wig w bam (stem ++ ".wig") a b c d).1 = .tuple true 0 →
    (bam_to_sizes w bam (stem ++ ".sizes")).1 = .ok →
    (wig_to_bigwig w (stem ++ ".wig") bw (stem ++ ".sizes")).1 = .tuple true 0 →
    ((main_pipeline w bam bw stem false true a b c d).1 = .finished
      ∧ (main_pipeline w bam bw stem false true a b c d).2.filter isRemove = [])
    ∧ (w.removeOk (stem ++ ".sizes") = true → w.removeOk (stem ++ ".wig") = true →
        (main_pipeline w bam bw stem false false a b c d).1 = .finished
        ∧ (main_pipeline w bam bw stem false false a b c d).2.filter isRemove =
            [.remove (stem ++ ".sizes"), .remove (stem ++ ".wig")])
    ∧ (w.removeOk (stem ++ ".sizes") = false →
        (main_pipeline w bam bw stem false false a b c d).1 =
          .raised ("OSError: remove " ++ (stem ++ ".sizes"))) := by
  intro w bam bw stem a b c d h1 h2 h3
  have e1 : ((bam_to_wig w bam (stem ++ ".wig") a b c d).2).filter isRemove = [] :=
    bam_to_wig_core_no_remove unix_signals w bam (stem ++ ".wig") a b c d
  have e2 : ((bam_to_sizes w bam (stem ++ ".sizes")).2).filter isRemove = [] :=
    bam_to_sizes_no_remove w bam (stem ++ ".sizes")
  have e3 : ((wig_to_bigwig w (stem ++ ".wig") bw (stem ++ ".sizes")).2).filter isRemove = [] :=
    wig_to_bigwig_core_no_remove unix_signals w (stem ++ ".wig") bw (stem ++ ".sizes")
  rcases hA : bam_to_wig w bam (stem ++ ".wig") a b c d with ⟨r1, evA⟩
  rcases hB : bam_to_sizes w bam (stem ++ ".sizes") with ⟨rs, evB⟩
  rcases hC : wig_to_bigwig w (stem ++ ".wig") bw (stem ++ ".sizes") with ⟨r2, evC⟩
  rw [hA] at h1 e1
  rw [hB] at h2 e2
  rw [hC] at h3 e3
  dsimp only at h1 h2 h3 e1 e2 e3
  subst h1
  subst h2
  subst h3
  refine ⟨?_, ?_, ?_⟩
  · simp only [main_pipeline, Bool.false_eq_true, if_false, hA, hB, hC]
    constructor
    · simp [stageTruthy]
    · simp [stageTruthy, List.filter_append, e1, e2, e3, isRemove]
  · intro hr1 hr2
    simp only [main_pipeline, Bool.false_eq_true, if_false, hA, hB, hC]
    constructor
    · simp [stageTruthy, hr1, hr2]
    · simp [stageTruthy, hr1, hr2, List.filter_append, e1, e2, e3, isRemove]
  · intro hr
    simp only [main_pipeline, Bool.false_eq_true, if_false, hA, hB, hC]
    simp [stageTruthy, hr]

/-- C6 amended witness: in `w0` (both stages succeed, removals succeed) the
no-keep run removes the sizes file then the wig file and finishes, and the
keep run removes nothing. -/
theorem C6_amended_witness :
    ((main_pipeline w0 "sample.bam" "sample.bigwig" "sample" false true
        false false false false).1 = .finished
      ∧ (main_pipeline w0 "sample.bam" "sample.bigwig" "sample" false true
          false false false false).2.filter isRemove = [])
    ∧ ((main_pipeline w0 "sample.bam" "sample.bigwig" "sample" false false
        false false false false).1 = .finished
      ∧ (main_pipeline w0 "sample.bam" "sample.bigwig" "sample" false false
          false false false false).2.filter isRemove =
        [.remove ("sample" ++ ".sizes"), .remove ("sample" ++ ".wig")]) :=
  ⟨(C6_amended w0 "sample.bam" "sample.bigwig" "sample" false false false false
      (by decide) (by decide) (by decide)).1,
   (C6_amended w0 "sample.bam" "sample.bigwig" "sample" false false false false
      (by decide) (by decide) (by decide)).2.1 (by decide) (by decide)⟩

end BamToBigwig
